import Mathlib

/-!
Verification of the bodhi masher (src/bodhi/masher.py) against its
natural-language specification.

The Python module is shallowly embedded: the orchestrator (class Masher)
becomes a state-transition system over an explicit state record, the
pipeline (class MashTask) becomes pure functions threading explicit state,
and external collaborators (the koji build system, the SQL object store,
the filesystem) become function parameters.  Python lists are Lean lists,
Python sets are lists with membership-guarded insertion, Python dicts are
association lists, and fallible code returns Except.
-/

namespace Bodhi

/-! ## Data model

Mirrors the fields of bodhi.model that masher.py reads: an update has a
title, a request (possibly None), a status, a release (with name and
dist_tag) and a list of builds (each with an nvr and an inherited flag). -/

structure Build where
  nvr : String
  inherited : Bool
deriving DecidableEq, Repr

structure Release where
  name : String
  dist_tag : String
deriving DecidableEq, Repr

structure PackageUpdate where
  title : String
  request : Option String
  status : String
  release : Release
  builds : List Build
deriving DecidableEq, Repr

/-! ## The Masher orchestrator (masher.py lines 58-106)

State of the singleton Masher: the pending-request queue (append at the
tail, exactly as list.append), the list of running MashTask threads, and
the monotonically increasing thread_id counter.  A queued request is
reduced to its identifying fields: the assigned sequence id and the resume
flag (the updates/repos payloads do not influence dispatch decisions).

Python list.pop() with no argument removes and returns the LAST element;
this is modelled by getLast? / dropLast.

Constructing a MashTask can raise (MashTask.__init__ calls _lock, which
raises MashTaskException when the MASHING marker exists and resume is
false).  The abstract predicate ok : QReq -> Bool says whether
construction of the task for a given request succeeds; when it fails the
exception propagates out of Masher._mash and hence out of queue/done,
which is recorded in the raised flag of the step result. -/

structure QReq where
  id : Nat
  resume : Bool
deriving DecidableEq, Repr

structure MState where
  queue : List QReq
  threads : List QReq
  nextId : Nat
deriving DecidableEq, Repr

/-- Result of one synchronized Masher method call: the post state, the
dispatch record (queue contents just before the pop, and the request whose
MashTask was constructed and started), and whether an exception escaped
the call. -/
structure StepRes where
  state : MState
  dispatched : Option (List QReq × QReq)
  raised : Bool
deriving DecidableEq, Repr

/-- Lines 80-82 and 97-99: if the queue is non-empty, pop its LAST element
(Python list.pop()) and hand it to _mash, which constructs the MashTask
(possibly raising) and, on success, appends it to _threads and starts it. -/
def tryDispatch (ok : QReq → Bool) (s : MState) : StepRes :=
  match s.queue.getLast? with
  | none => { state := s, dispatched := none, raised := false }
  | some r =>
      let s1 : MState := { s with queue := s.queue.dropLast }
      if ok r then
        { state := { s1 with threads := s1.threads ++ [r] },
          dispatched := some (s.queue, r), raised := false }
      else
        { state := s1, dispatched := none, raised := true }

/-- Masher.queue (lines 76-82): append the request, bump thread_id, and if
no thread is running dispatch from the queue. -/
def Masher.queueOp (ok : QReq → Bool) (s : MState) (resume : Bool) : StepRes :=
  let s1 : MState :=
    { s with queue := s.queue ++ [{ id := s.nextId, resume := resume }],
             nextId := s.nextId + 1 }
  if s1.threads = [] then tryDispatch ok s1
  else { state := s1, dispatched := none, raised := false }

/-- Masher.done (lines 84-99): remove the finished thread (list.remove
raises ValueError when absent) and, if no thread remains and the queue is
non-empty, dispatch the next request. -/
def Masher.doneOp (ok : QReq → Bool) (s : MState) (t : QReq) : StepRes :=
  if t ∈ s.threads then
    let s1 : MState := { s with threads := s.threads.erase t }
    if s1.threads = [] then tryDispatch ok s1
    else { state := s1, dispatched := none, raised := false }
  else { state := s, dispatched := none, raised := true }

inductive MOp
  | submit (resume : Bool)
  | complete (t : QReq)
deriving DecidableEq, Repr

def Masher.step (ok : QReq → Bool) (s : MState) : MOp → StepRes
  | .submit r => Masher.queueOp ok s r
  | .complete t => Masher.doneOp ok s t

/-- Execute a sequence of synchronized Masher calls from a state,
collecting the dispatch records in order. -/
def Masher.runOps (ok : QReq → Bool) (s : MState) :
    List MOp → MState × List (List QReq × QReq)
  | [] => (s, [])
  | op :: rest =>
      let r := Masher.step ok s op
      let t := Masher.runOps ok r.state rest
      (t.1, r.dispatched.toList ++ t.2)

/-- Masher.__init__ (lines 68-74). -/
def Masher.initState : MState := { queue := [], threads := [], nextId := 0 }

/-- The FIFO-dispatch property claimed by the spec: every dispatch record
in a run names the OLDEST queued request (the head of the queue, since
submissions append at the tail). -/
def dispatchesOldestFirst (ok : QReq → Bool) (ops : List MOp) : Prop :=
  ∀ p ∈ (Masher.runOps ok Masher.initState ops).2, p.1.head? = some p.2

/-! ## MashTask construction: the resumption marker (lines 156-227)

The filesystem state relevant to the pipeline is the MASHING marker file:
absent, or present with a pickled list of update titles.  PackageUpdate
lookup by title (PackageUpdate.byTitle, raising SQLObjectNotFound) is a
function parameter returning Option. -/

structure FsState where
  marker : Option (List String)
deriving DecidableEq, Repr

inductive MashErr
  | mashTaskException
deriving DecidableEq, Repr

/-- Python set.add on a list-as-set: insert only when absent. -/
def updatesAdd (s : List PackageUpdate) (u : PackageUpdate) : List PackageUpdate :=
  if u ∈ s then s else s ++ [u]

/-- MashTask._lock (lines 189-220): if the marker exists and we are
resuming, load its titles and add every update that still resolves
(titles that raise SQLObjectNotFound are logged and skipped); if it
exists and we are not resuming, raise MashTaskException; if absent,
create it with the titles of the current update set. -/
def MashTask.lockAcquire (byTitle : String → Option PackageUpdate) (resume : Bool)
    (updates : List PackageUpdate) (fs : FsState) :
    Except MashErr (List PackageUpdate × FsState) :=
  match fs.marker with
  | some titles =>
      if resume then
        .ok (titles.foldl (fun acc t =>
              match byTitle t with
              | some up => updatesAdd acc up
              | none => acc) updates, fs)
      else .error .mashTaskException
  | none =>
      .ok (updates, { marker := some (updates.map (fun u => u.title)) })

/-- MashTask._unlock (lines 222-227): remove the marker (when it is
already absent an error is merely logged). -/
def MashTask.unlockStep (_fs : FsState) : FsState := { marker := none }

/-- MashTask._find_repos (lines 297-317). -/
def reposAdd (rs : List String) (r : String) : List String :=
  if r ∈ rs then rs else rs ++ [r]

def findRepos (resume : Bool) (updates : List PackageUpdate)
    (repos : List String) : List String :=
  updates.foldl (fun rs u =>
    let release := u.release.name.toLower
    if resume then
      reposAdd (reposAdd rs (release ++ "-updates")) (release ++ "-updates-testing")
    else if u.request = some "stable" then
      let rs2 := reposAdd rs (release ++ "-updates")
      if u.status = "testing" then reposAdd rs2 (release ++ "-updates-testing") else rs2
    else if u.request = some "testing" then
      reposAdd rs (release ++ "-updates-testing")
    else if u.request = some "obsolete" then
      if u.status = "testing" then reposAdd rs (release ++ "-updates-testing")
      else if u.status = "stable" then reposAdd rs (release ++ "-updates")
      else rs
    else rs) repos

/-- Observable side effects of pipeline code, used to state that failed
construction issues no tag mutation and produces no composition output. -/
inductive Effect
  | markerWrite (titles : List String)
  | tagMutation (tag : String) (nvr : String)
  | composeRepo (repo : String)
deriving DecidableEq, Repr

structure TaskState where
  updates : List PackageUpdate
  repos : List String
  tag : Option String
  actions : List (String × String × Option String)
  errors : List String
  safe : Bool
  success : Bool
  resume : Bool
deriving DecidableEq, Repr

/-- MashTask.__init__ (lines 156-187): build the update set, acquire the
marker (possibly raising), then derive the repositories to compose.  The
returned effect list records what construction did to the outside world:
at most a marker write, never a tag mutation or composition output. -/
def MashTask.taskInit (byTitle : String → Option PackageUpdate) (resume : Bool)
    (updates0 : List PackageUpdate) (repos0 : List String) (fs : FsState) :
    Except MashErr TaskState × FsState × List Effect :=
  let ups := updates0.foldl updatesAdd []
  match MashTask.lockAcquire byTitle resume ups fs with
  | .error e => (.error e, fs, [])
  | .ok (ups2, fs2) =>
      let effs : List Effect :=
        match fs.marker with
        | none => [Effect.markerWrite (ups.map (fun u => u.title))]
        | some _ => []
      (.ok { updates := ups2, repos := findRepos resume ups2 repos0,
             tag := none, actions := [], errors := [], safe := true,
             success := false, resume := resume }, fs2, effs)

/-! ## safe_to_move (lines 229-295)

The koji tag listings are a function parameter listTagged from tag name
to the nvrs carrying that tag.  The three per-release nvr dictionaries
are association lists keyed by release name, populated on the first
update of each release exactly as in the source. -/

abbrev TagDicts := List (String × (List String × List String × List String))

def populateNvrs (listTagged : String → List String)
    (updates : List PackageUpdate) : TagDicts :=
  updates.foldl (fun d u =>
    if (d.lookup u.release.name).isSome then d
    else d ++ [(u.release.name,
        (listTagged (u.release.dist_tag ++ "-updates-candidate"),
         listTagged (u.release.dist_tag ++ "-updates-testing"),
         listTagged (u.release.dist_tag ++ "-updates")))]) []

def dictPending (d : TagDicts) (name : String) : List String :=
  ((d.lookup name).getD ([], [], [])).1

def dictTesting (d : TagDicts) (name : String) : List String :=
  ((d.lookup name).getD ([], [], [])).2.1

def dictStable (d : TagDicts) (name : String) : List String :=
  ((d.lookup name).getD ([], [], [])).2.2

/-- The per-build consistency check of lines 258-292: none when the build
passes, or the error message appended by error_log when it fails. -/
def checkBuild (d : TagDicts) (u : PackageUpdate) (b : Build) : Option String :=
  if u.request = some "testing" then
    if b.nvr ∈ dictPending d u.release.name then none
    else some (b.nvr ++ " not tagged as candidate")
  else if u.request = some "stable" then
    if u.status = "testing" then
      if b.nvr ∈ dictTesting d u.release.name then none
      else some (b.nvr ++ " not tagged as testing")
    else if u.status = "pending" then
      if b.nvr ∈ dictPending d u.release.name then none
      else some (b.nvr ++ " not tagged as candidate")
    else none
  else if u.request = some "unpush" then
    if u.status = "testing" then
      if b.nvr ∈ dictTesting d u.release.name then none
      else some (b.nvr ++ " not tagged as testing")
    else if u.status = "stable" then
      if b.nvr ∈ dictStable d u.release.name then none
      else some (b.nvr ++ " not tagged as stable")
    else none
  else if u.request = some "obsolete" then
    if u.status = "testing" then
      if b.nvr ∈ dictTesting d u.release.name then none
      else some (b.nvr ++ " not tagged as testing")
    else if u.status = "stable" then
      if b.nvr ∈ dictStable d u.release.name then none
      else some (b.nvr ++ " not tagged as stable")
    else none
  else
    some ("Unknown request " ++ (u.request.getD "None") ++ " for " ++ u.title)

/-- The mutable flags touched by MashTask.error_log. -/
structure ErrState where
  errors : List String
  safe : Bool
  success : Bool
deriving DecidableEq, Repr

/-- MashTask.error_log (lines 229-233). -/
def error_log (st : ErrState) (msg : String) : ErrState :=
  { errors := st.errors ++ [msg], safe := false, success := false }

/-- MashTask.safe_to_move (lines 235-295): populate the nvr dictionaries,
then walk every build of every update, logging an error for each failing
check, and return the safe flag. -/
def safe_to_move (listTagged : String → List String)
    (updates : List PackageUpdate) (st : ErrState) : ErrState × Bool :=
  let d := populateNvrs listTagged updates
  let st2 := updates.foldl (fun st1 u =>
      u.builds.foldl (fun st2 b =>
        match checkBuild d u b with
        | some msg => error_log st2 msg
        | none => st2) st1) st
  (st2, st2.safe)

/-- The messages logged by one safe_to_move pass: one per failing build. -/
def failMsgs (listTagged : String → List String)
    (updates : List PackageUpdate) : List String :=
  let d := populateNvrs listTagged updates
  updates.flatMap (fun u => u.builds.filterMap (checkBuild d u))

/-! ## move_builds (lines 319-355)

update.get_build_tag() lives in bodhi.model (not under src/), so the
current tag of an update is a function parameter gbt.  The koji multicall
batch is the list of issued mutations; the actions audit log is the list
of (nvr, current tag, destination tag) triples.  self.tag starts as None
(line 168) and is only reassigned for the stable/testing/obsolete
requests, so for any other request the previous value leaks through. -/

inductive KojiCall
  | tagBuildCall (tag : Option String) (nvr : String)
  | moveBuildCall (src : String) (dst : Option String) (nvr : String)
deriving DecidableEq, Repr

def callNvr : KojiCall → String
  | .tagBuildCall _ nvr => nvr
  | .moveBuildCall _ _ nvr => nvr

def callDst : KojiCall → Option String
  | .tagBuildCall tag _ => tag
  | .moveBuildCall _ dst _ => dst

/-- Lines 331-336: the destination tag for an update, given the value of
self.tag before this update is processed. -/
def destTag (u : PackageUpdate) (tag : Option String) : Option String :=
  if u.request = some "stable" then some (u.release.dist_tag ++ "-updates")
  else if u.request = some "testing" then some (u.release.dist_tag ++ "-updates-testing")
  else if u.request = some "obsolete" then some (u.release.dist_tag ++ "-updates-candidate")
  else tag

/-- Lines 338-346: inherited builds get a tagBuild, others a moveBuild. -/
def buildCall (tag : Option String) (cur : String) (b : Build) : KojiCall :=
  if b.inherited then .tagBuildCall tag b.nvr
  else .moveBuildCall cur tag b.nvr

/-- The per-update loop of lines 330-347, threading self.tag and
accumulating the multicall batch and the actions log. -/
def move_builds_go (gbt : PackageUpdate → String) (tag : Option String) :
    List PackageUpdate →
    Option String × List KojiCall × List (String × String × Option String)
  | [] => (tag, [], [])
  | u :: rest =>
      let t := destTag u tag
      let cur := gbt u
      let calls := u.builds.map (buildCall t cur)
      let acts := u.builds.map (fun b => (b.nvr, cur, t))
      let r := move_builds_go gbt t rest
      (r.1, calls ++ r.2.1, acts ++ r.2.2)

/-- MashTask.move_builds (lines 319-355): issue the batch, then block on
the resulting tasks; tasksOk abstracts wait_for_tasks returning zero.
The first Bool of the tail is the final success flag, the second whether
MashTaskException was raised.  The actions log is part of the result in
both outcomes, because the appends happen before the batch is awaited. -/
def move_builds_full (gbt : PackageUpdate → String) (tag : Option String)
    (updates : List PackageUpdate) (tasksOk : Bool) :
    (Option String × List KojiCall × List (String × String × Option String))
      × Bool × Bool :=
  (move_builds_go gbt tag updates, tasksOk, !tasksOk)

/-! ## The run state machine (lines 506-580)

The stages downstream of move_builds call external systems; their
outcomes are abstracted as booleans (raise / do not raise, and for
update_symlinks, pass or soft-fail its checks via error_log).  The
checking and moving stages are the concrete functions above.  Any raise
is caught by the top-level handler, which error_logs it; _unlock runs
exactly when the final success flag is set, and masher.done(self) runs on
every path. -/

structure StageOutcomes where
  tasksOk : Bool
  mashOk : Bool
  requestsOk : Bool
  genmdOk : Bool
  symlinksClean : Bool
  cacheOk : Bool
  syncOk : Bool
  notifyOk : Bool
deriving DecidableEq, Repr

structure RunResult where
  st : ErrState
  kojiCalls : List KojiCall
  unlockCalled : Bool
  doneCalled : Bool
  fs : FsState
deriving DecidableEq, Repr

/-- Lines 578-580: if self.success, remove the marker; then notify the
orchestrator. -/
def runEpilogue (st : ErrState) (calls : List KojiCall) (fs : FsState) : RunResult :=
  if st.success then
    { st := st, kojiCalls := calls, unlockCalled := true, doneCalled := true,
      fs := MashTask.unlockStep fs }
  else
    { st := st, kojiCalls := calls, unlockCalled := false, doneCalled := true,
      fs := fs }

/-- Stages 4-10 of run (lines 524-569): mash, post-request actions,
updateinfo generation, symlink updates, repodata caching, mirror sync,
notification.  A raising stage is caught by the except handler of lines
571-574, which error_logs it. -/
def mashAndRest (o : StageOutcomes) (st : ErrState) (calls : List KojiCall)
    (repos : List String) (fs : FsState) : RunResult :=
  if repos ≠ [] ∧ o.mashOk = false then
    runEpilogue (error_log { st with success := false } "Mash failed") calls fs
  else
    let st2 := if repos = [] then st else { st with success := true }
    if o.requestsOk = false then
      runEpilogue (error_log st2 "exception in post-request actions") calls fs
    else if o.genmdOk = false then
      runEpilogue (error_log st2 "exception generating updateinfo") calls fs
    else
      let st3 := if o.symlinksClean then st2
                 else error_log st2 "publish sanity check failed"
      if o.cacheOk = false then
        runEpilogue (error_log st3 "exception caching repodata") calls fs
      else if o.syncOk = false then
        runEpilogue (error_log st3 "exception waiting for sync") calls fs
      else if o.notifyOk = false then
        runEpilogue (error_log st3 "exception sending notices") calls fs
      else
        runEpilogue st3 calls fs

/-- MashTask.run (lines 506-580).  success is set True on entry; when not
resuming and safe_to_move fails, run returns early (masher.done is still
called, _unlock is not); when not resuming and there are updates, the
builds are moved, a batch failure raising MashTaskException which the
handler error_logs; then the remaining stages run. -/
def MashTask.taskRun (o : StageOutcomes) (listTagged : String → List String)
    (gbt : PackageUpdate → String) (resume : Bool)
    (updates : List PackageUpdate) (repos : List String) (fs : FsState) : RunResult :=
  let st0 : ErrState := { errors := [], safe := true, success := true }
  if resume = false ∧ (safe_to_move listTagged updates st0).2 = false then
    { st := (safe_to_move listTagged updates st0).1, kojiCalls := [],
      unlockCalled := false, doneCalled := true, fs := fs }
  else
    let st1 := if resume then st0 else (safe_to_move listTagged updates st0).1
    if resume = false ∧ updates ≠ [] then
      let calls := (move_builds_go gbt none updates).2.1
      if o.tasksOk then
        mashAndRest o { st1 with success := true } calls repos fs
      else
        runEpilogue (error_log { st1 with success := false } "Failed to move builds")
          calls fs
    else
      mashAndRest o st1 [] repos fs

/-! ## update_symlinks (lines 392-450)

The filesystem is abstracted by listdir and islink functions.  The stage
emits filesystem operations: the arch renames of lines 410-412, the
stage-relocation move of line 442, the unlink of line 448 and the symlink
of line 449.  Two slips of the source are embedded faithfully: line 419
evaluates `arches + (arch ++ ".newkey")`, concatenating a list with a
string, which in Python raises TypeError as soon as any arch is
configured; and line 440 compares mashed_dir with itself, so the
relocation move can never run. -/

structure SymCfg where
  mashed_dir : String
  mashed_stage_dir : String
  arches : List String
deriving DecidableEq, Repr

structure SymFs where
  listdir : String → List String
  islink : String → Bool

inductive PyErr
  | typeError
  | indexError
deriving DecidableEq, Repr

inductive FsOp
  | rename (src dst : String)
  | moveTree (src dst : String)
  | unlink (p : String)
  | symlink (target link : String)
deriving DecidableEq, Repr

def pjoin (a b : String) : String := a ++ "/" ++ b

/-- Lines 438-450: the stage move guarded by the self-comparison of line
440, then the unlink-and-recreate of the live symlink. -/
def publishRepoTail (cfg : SymCfg) (fs : SymFs) (mashdir newrepo link : String)
    (eff : List FsOp) : List FsOp :=
  let eff1 := if cfg.mashed_dir ≠ cfg.mashed_dir then
                eff ++ [FsOp.moveTree mashdir cfg.mashed_stage_dir]
              else eff
  let eff2 := if fs.islink link then eff1 ++ [FsOp.unlink link] else eff1
  eff2 ++ [FsOp.symlink newrepo link]

/-- MashTask.update_symlinks (lines 392-450) over the mashed_repos items,
accumulating the emitted filesystem operations.  An error_log-and-return
(symlink-polluted tree) stops the whole stage with the effects so far; a
Python-level TypeError or IndexError propagates as an exception. -/
def update_symlinks_go (cfg : SymCfg) (fs : SymFs) (st : ErrState) (eff : List FsOp) :
    List (String × String) → Except PyErr (ErrState × List FsOp)
  | [] => .ok (st, eff)
  | (repo, mashdir) :: rest =>
      let link := pjoin cfg.mashed_dir repo
      let newrepo := pjoin mashdir repo
      let arches := fs.listdir newrepo
      let eff1 := eff ++ arches.map (fun a =>
        FsOp.rename (pjoin newrepo a) (pjoin newrepo (a ++ ".newkey")))
      let arches2 := arches.map (fun a => a ++ ".newkey")
      if cfg.arches ≠ [] then .error PyErr.typeError
      else
        match arches2.head? with
        | none => .error PyErr.indexError
        | some a0 =>
          let pkgs := fs.listdir (pjoin newrepo a0)
          match pkgs.find? (fun p => p.endsWith ".rpm") with
          | some pkg =>
            if fs.islink (pjoin (pjoin newrepo a0) pkg) then
              .ok (error_log st "Mashed repository full of symlinks!", eff1)
            else
              update_symlinks_go cfg fs st (publishRepoTail cfg fs mashdir newrepo link eff1) rest
          | none =>
            update_symlinks_go cfg fs st (publishRepoTail cfg fs mashdir newrepo link eff1) rest

/-! ## Theorems: orchestrator dispatch (claims C1, C2, C9) -/

lemma mem_of_getLast?_eq {α : Type} {l : List α} {a : α}
    (h : l.getLast? = some a) : a ∈ l := by
  rcases List.mem_getLast?_eq_getLast (l := l) (x := a) h with ⟨hne, rfl⟩
  exact List.getLast_mem hne

lemma tryDispatch_threads (ok : QReq → Bool) (s : MState) (h : s.threads = []) :
    ((tryDispatch ok s).state).threads.length ≤ 1 := by
  unfold tryDispatch
  cases hq : s.queue.getLast? with
  | none => simp [h]
  | some r => by_cases hk : ok r <;> simp [hk, h]

lemma queueOp_threads (ok : QReq → Bool) (s : MState) (b : Bool)
    (h : s.threads.length ≤ 1) :
    ((Masher.queueOp ok s b).state).threads.length ≤ 1 := by
  unfold Masher.queueOp
  by_cases ht : s.threads = []
  · rw [if_pos ht]
    exact tryDispatch_threads ok _ ht
  · rw [if_neg ht]
    simpa using h

lemma doneOp_threads (ok : QReq → Bool) (s : MState) (t : QReq)
    (h : s.threads.length ≤ 1) :
    ((Masher.doneOp ok s t).state).threads.length ≤ 1 := by
  unfold Masher.doneOp
  by_cases hm : t ∈ s.threads
  · rw [if_pos hm]
    by_cases he : s.threads.erase t = []
    · rw [if_pos he]
      exact tryDispatch_threads ok _ he
    · rw [if_neg he]
      simpa using le_trans (List.erase_sublist t s.threads).length_le h
  · rw [if_neg hm]
    simpa using h

lemma step_threads (ok : QReq → Bool) (s : MState) (op : MOp)
    (h : s.threads.length ≤ 1) :
    ((Masher.step ok s op).state).threads.length ≤ 1 := by
  cases op with
  | submit b => exact queueOp_threads ok s b h
  | complete t => exact doneOp_threads ok s t h

lemma runOps_threads (ok : QReq → Bool) (ops : List MOp) : ∀ (s : MState),
    s.threads.length ≤ 1 → ((Masher.runOps ok s ops).1).threads.length ≤ 1 := by
  induction ops with
  | nil => intro s h; simpa [Masher.runOps] using h
  | cons op rest ih =>
      intro s h
      simpa [Masher.runOps] using ih _ (step_threads ok s op h)

/-- C2: for every interleaving of Masher.queue and Masher.done calls, at
most one MashTask is running at a time: a dispatch only happens when the
thread list is empty, so its length never exceeds one.  Every reachable
state is the final state of some operation sequence, so quantifying over
all sequences covers the whole execution. -/
theorem C2_at_most_one_running (ok : QReq → Bool) (ops : List MOp) :
    ((Masher.runOps ok Masher.initState ops).1).threads.length ≤ 1 :=
  runOps_threads ok ops Masher.initState (by simp [Masher.initState])

/-- C1, as stated (FIFO dispatch), is false: after submitting requests 0,
1, 2 (request 0 starts immediately, 1 and 2 queue) and completing request
0, Masher.done pops the TAIL of the queue (Python list.pop()), starting
request 2 while the oldest queued request is 1. -/
theorem C1_counterexample :
    ¬ dispatchesOldestFirst (fun _ => true)
        [MOp.submit false, MOp.submit false, MOp.submit false,
         MOp.complete { id := 0, resume := false }] := by
  unfold dispatchesOldestFirst
  decide

lemma tryDispatch_queue_pairwise (ok : QReq → Bool) (s : MState)
    (hp : s.queue.Pairwise (fun x y => x.id < y.id))
    (hb : ∀ x ∈ s.queue, x.id < s.nextId) :
    (((tryDispatch ok s).state).queue.Pairwise (fun x y => x.id < y.id))
    ∧ ∀ x ∈ ((tryDispatch ok s).state).queue,
        x.id < ((tryDispatch ok s).state).nextId := by
  unfold tryDispatch
  cases hq : s.queue.getLast? with
  | none => exact ⟨hp, hb⟩
  | some r =>
      have hsub := List.dropLast_sublist s.queue
      have hpd : (s.queue.dropLast).Pairwise (fun x y => x.id < y.id) :=
        hp.sublist hsub
      have hbd : ∀ x ∈ s.queue.dropLast, x.id < s.nextId :=
        fun x hx => hb x (hsub.subset hx)
      by_cases hk : ok r <;> simp [hk] <;> exact ⟨hpd, hbd⟩

lemma tryDispatch_dispatched (ok : QReq → Bool) (s : MState)
    (hp : s.queue.Pairwise (fun x y => x.id < y.id))
    {q : List QReq} {r : QReq}
    (hd : (tryDispatch ok s).dispatched = some (q, r)) :
    r ∈ q ∧ ∀ x ∈ q, x.id ≤ r.id := by
  cases hq : s.queue.getLast? with
  | none =>
      unfold tryDispatch at hd
      rw [hq] at hd
      simp at hd
  | some r0 =>
      unfold tryDispatch at hd
      rw [hq] at hd
      by_cases hk : ok r0
      · simp [hk] at hd
        obtain ⟨rfl, rfl⟩ := hd
        refine ⟨mem_of_getLast?_eq hq, ?_⟩
        intro x hx
        have hdecomp := List.dropLast_append_getLast? r0 hq
        rw [← hdecomp] at hp hx
        rcases List.mem_append.mp hx with hx1 | hx2
        · exact le_of_lt ((List.pairwise_append.mp hp).2.2 x hx1 r0 (by simp))
        · simp at hx2
          subst hx2
          exact le_refl _
      · simp [hk] at hd

lemma queueOp_appended_pairwise (s : MState) (b : Bool)
    (hp : s.queue.Pairwise (fun x y => x.id < y.id))
    (hb : ∀ x ∈ s.queue, x.id < s.nextId) :
    ((s.queue ++ [({ id := s.nextId, resume := b } : QReq)]).Pairwise
        (fun x y => x.id < y.id))
    ∧ ∀ x ∈ s.queue ++ [({ id := s.nextId, resume := b } : QReq)],
        x.id < s.nextId + 1 := by
  constructor
  · rw [List.pairwise_append]
    refine ⟨hp, by simp, ?_⟩
    intro x hx y hy
    simp at hy
    subst hy
    exact hb x hx
  · intro x hx
    rcases List.mem_append.mp hx with hx1 | hx2
    · exact Nat.lt_succ_of_lt (hb x hx1)
    · simp at hx2
      subst hx2
      exact Nat.lt_succ_self _

lemma queueOp_queue_pairwise (ok : QReq → Bool) (s : MState) (b : Bool)
    (hp : s.queue.Pairwise (fun x y => x.id < y.id))
    (hb : ∀ x ∈ s.queue, x.id < s.nextId) :
    (((Masher.queueOp ok s b).state).queue.Pairwise (fun x y => x.id < y.id))
    ∧ ∀ x ∈ ((Masher.queueOp ok s b).state).queue,
        x.id < ((Masher.queueOp ok s b).state).nextId := by
  unfold Masher.queueOp
  obtain ⟨hp1, hb1⟩ := queueOp_appended_pairwise s b hp hb
  by_cases ht : s.threads = []
  · rw [if_pos ht]
    exact tryDispatch_queue_pairwise ok _ hp1 hb1
  · rw [if_neg ht]
    exact ⟨hp1, hb1⟩

lemma doneOp_queue_pairwise (ok : QReq → Bool) (s : MState) (t : QReq)
    (hp : s.queue.Pairwise (fun x y => x.id < y.id))
    (hb : ∀ x ∈ s.queue, x.id < s.nextId) :
    (((Masher.doneOp ok s t).state).queue.Pairwise (fun x y => x.id < y.id))
    ∧ ∀ x ∈ ((Masher.doneOp ok s t).state).queue,
        x.id < ((Masher.doneOp ok s t).state).nextId := by
  unfold Masher.doneOp
  by_cases hm : t ∈ s.threads
  · rw [if_pos hm]
    by_cases he : s.threads.erase t = []
    · rw [if_pos he]
      exact tryDispatch_queue_pairwise ok _ hp hb
    · rw [if_neg he]
      exact ⟨hp, hb⟩
  · rw [if_neg hm]
    exact ⟨hp, hb⟩

lemma step_queue_pairwise (ok : QReq → Bool) (s : MState) (op : MOp)
    (hp : s.queue.Pairwise (fun x y => x.id < y.id))
    (hb : ∀ x ∈ s.queue, x.id < s.nextId) :
    (((Masher.step ok s op).state).queue.Pairwise (fun x y => x.id < y.id))
    ∧ ∀ x ∈ ((Masher.step ok s op).state).queue,
        x.id < ((Masher.step ok s op).state).nextId := by
  cases op with
  | submit b => exact queueOp_queue_pairwise ok s b hp hb
  | complete t => exact doneOp_queue_pairwise ok s t hp hb

lemma queueOp_dispatched (ok : QReq → Bool) (s : MState) (b : Bool)
    (hp : s.queue.Pairwise (fun x y => x.id < y.id))
    (hb : ∀ x ∈ s.queue, x.id < s.nextId)
    {q : List QReq} {r : QReq}
    (hd : (Masher.queueOp ok s b).dispatched = some (q, r)) :
    r ∈ q ∧ ∀ x ∈ q, x.id ≤ r.id := by
  unfold Masher.queueOp at hd
  obtain ⟨hp1, _⟩ := queueOp_appended_pairwise s b hp hb
  by_cases ht : s.threads = []
  · rw [if_pos ht] at hd
    exact tryDispatch_dispatched ok _ hp1 hd
  · rw [if_neg ht] at hd
    simp at hd

lemma doneOp_dispatched (ok : QReq → Bool) (s : MState) (t : QReq)
    (hp : s.queue.Pairwise (fun x y => x.id < y.id))
    {q : List QReq} {r : QReq}
    (hd : (Masher.doneOp ok s t).dispatched = some (q, r)) :
    r ∈ q ∧ ∀ x ∈ q, x.id ≤ r.id := by
  unfold Masher.doneOp at hd
  by_cases hm : t ∈ s.threads
  · rw [if_pos hm] at hd
    by_cases he : s.threads.erase t = []
    · rw [if_pos he] at hd
      exact tryDispatch_dispatched ok
        { s with threads := s.threads.erase t } hp hd
    · rw [if_neg he] at hd
      simp at hd
  · rw [if_neg hm] at hd
    simp at hd

lemma step_dispatched (ok : QReq → Bool) (s : MState) (op : MOp)
    (hp : s.queue.Pairwise (fun x y => x.id < y.id))
    (hb : ∀ x ∈ s.queue, x.id < s.nextId)
    {q : List QReq} {r : QReq}
    (hd : (Masher.step ok s op).dispatched = some (q, r)) :
    r ∈ q ∧ ∀ x ∈ q, x.id ≤ r.id := by
  cases op with
  | submit b => exact queueOp_dispatched ok s b hp hb hd
  | complete t => exact doneOp_dispatched ok s t hp hd

lemma runOps_lifo (ok : QReq → Bool) (ops : List MOp) : ∀ (s : MState),
    s.queue.Pairwise (fun x y => x.id < y.id) →
    (∀ x ∈ s.queue, x.id < s.nextId) →
    ∀ p ∈ (Masher.runOps ok s ops).2, p.2 ∈ p.1 ∧ ∀ x ∈ p.1, x.id ≤ p.2.id := by
  induction ops with
  | nil =>
      intro s _ _ p hp2
      simp [Masher.runOps] at hp2
  | cons op rest ih =>
      intro s hp hb p hmem
      have hmem2 : p ∈ ((Masher.step ok s op).dispatched).toList
          ++ (Masher.runOps ok (Masher.step ok s op).state rest).2 := by
        simpa [Masher.runOps] using hmem
      rcases List.mem_append.mp hmem2 with h1 | h2
      · cases hdisp : (Masher.step ok s op).dispatched with
        | none =>
            rw [hdisp] at h1
            simp at h1
        | some pr =>
            rw [hdisp] at h1
            simp at h1
            subst h1
            exact step_dispatched ok s op hp hb hdisp
      · obtain ⟨hp1, hb1⟩ := step_queue_pairwise ok s op hp hb
        exact ih _ hp1 hb1 p h2

/-- C1 amended: dispatch order is LIFO, not FIFO.  Whenever a request is
started from the queue (when a slot frees in Masher.done, or when
submitting while idle in Masher.queue), the started request is the MOST
RECENTLY submitted queued request: it belongs to the queue and its
sequence id is an upper bound of all queued sequence ids, because Python
list.pop() with no argument removes the tail.  (When submitting while
idle the queue holds only the just-submitted request, so newest and
oldest coincide there.) -/
theorem C1_amended_lifo (ok : QReq → Bool) (ops : List MOp)
    (p : List QReq × QReq)
    (hmem : p ∈ (Masher.runOps ok Masher.initState ops).2) :
    p.2 ∈ p.1 ∧ ∀ x ∈ p.1, x.id ≤ p.2.id :=
  runOps_lifo ok ops Masher.initState (by simp [Masher.initState])
    (by simp [Masher.initState]) p hmem

/-- C1 amended, witnessed on the counterexample trace: completing request
0 with requests 1 and 2 queued dispatches request 2, the newest. -/
theorem C1_amended_lifo_witness :
    (([({ id := 1, resume := false } : QReq), { id := 2, resume := false }],
        ({ id := 2, resume := false } : QReq)) ∈
      (Masher.runOps (fun _ => true) Masher.initState
        [MOp.submit false, MOp.submit false, MOp.submit false,
         MOp.complete { id := 0, resume := false }]).2)
    ∧ (({ id := 2, resume := false } : QReq) ∈
        [({ id := 1, resume := false } : QReq), { id := 2, resume := false }]
      ∧ ∀ x ∈ [({ id := 1, resume := false } : QReq), { id := 2, resume := false }],
          x.id ≤ ({ id := 2, resume := false } : QReq).id) :=
  ⟨by decide,
   C1_amended_lifo (fun _ => true)
     [MOp.submit false, MOp.submit false, MOp.submit false,
      MOp.complete { id := 0, resume := false }]
     ([{ id := 1, resume := false }, { id := 2, resume := false }],
      { id := 2, resume := false })
     (by decide)⟩

/-- C9 is right about the intent but the code violates it: when the
resumption marker exists and a non-resume request is submitted while
idle, Masher._mash constructs the MashTask, whose __init__ raises
MashTaskException from _lock BEFORE thread.start() is ever called.  The
exception therefore escapes Masher.queue itself (raised = true), no
pipeline is started (dispatched = none), the popped request is gone from
the queue, and — since MashTask.run never executes — Masher.done is never
invoked for that request, contrary to the spec's failure/edge policy. -/
theorem C9_construction_failure_drops_request :
    (Masher.queueOp
        (fun r =>
          match MashTask.lockAcquire (fun _ => none) r.resume []
              { marker := some ["bodhi-update-1"] } with
          | .ok _ => true
          | .error _ => false)
        Masher.initState false).raised = true
    ∧ (Masher.queueOp
        (fun r =>
          match MashTask.lockAcquire (fun _ => none) r.resume []
              { marker := some ["bodhi-update-1"] } with
          | .ok _ => true
          | .error _ => false)
        Masher.initState false).dispatched = none
    ∧ ((Masher.queueOp
        (fun r =>
          match MashTask.lockAcquire (fun _ => none) r.resume []
              { marker := some ["bodhi-update-1"] } with
          | .ok _ => true
          | .error _ => false)
        Masher.initState false).state).threads = []
    ∧ ((Masher.queueOp
        (fun r =>
          match MashTask.lockAcquire (fun _ => none) r.resume []
              { marker := some ["bodhi-update-1"] } with
          | .ok _ => true
          | .error _ => false)
        Masher.initState false).state).queue = [] := by
  decide

/-! ## Theorems: the resumption marker (claims C3, C4) -/

lemma mem_updatesAdd {s : List PackageUpdate} {u v : PackageUpdate} :
    u ∈ updatesAdd s v ↔ u ∈ s ∨ u = v := by
  unfold updatesAdd
  by_cases h : v ∈ s
  · simp only [h, if_true]
    constructor
    · exact Or.inl
    · rintro (hu | rfl)
      · exact hu
      · exact h
  · simp [h]

lemma mem_foldl_updatesAdd (l : List PackageUpdate) : ∀ (base : List PackageUpdate)
    (u : PackageUpdate), u ∈ l.foldl updatesAdd base ↔ u ∈ base ∨ u ∈ l := by
  induction l with
  | nil => simp
  | cons a t ih =>
      intro base u
      simp only [List.foldl_cons, ih, mem_updatesAdd, List.mem_cons]
      tauto

lemma mem_resumeFold (byTitle : String → Option PackageUpdate)
    (titles : List String) : ∀ (base : List PackageUpdate) (u : PackageUpdate),
    (u ∈ titles.foldl (fun acc t => match byTitle t with
        | some up => updatesAdd acc up
        | none => acc) base)
    ↔ u ∈ base ∨ ∃ t ∈ titles, byTitle t = some u := by
  induction titles with
  | nil => simp
  | cons a t ih =>
      intro base u
      simp only [List.foldl_cons]
      cases hb : byTitle a with
      | none =>
          rw [ih]
          simp [hb]
      | some up =>
          rw [ih, mem_updatesAdd]
          simp only [List.mem_cons, hb]
          constructor
          · rintro ((h1 | rfl) | h2)
            · exact Or.inl h1
            · exact Or.inr ⟨a, Or.inl rfl, hb⟩
            · obtain ⟨t0, ht0, he⟩ := h2
              exact Or.inr ⟨t0, Or.inr ht0, he⟩
          · rintro (h1 | ⟨t0, (rfl | ht0), he⟩)
            · exact Or.inl (Or.inl h1)
            · rw [hb] at he
              cases he
              exact Or.inl (Or.inr rfl)
            · exact Or.inr ⟨t0, ht0, he⟩

/-- C3: constructing a MashTask with resume = false while the resumption
marker exists raises MashTaskException from _lock, before anything is
done: the filesystem is unchanged (in particular the existing marker is
not overwritten) and no effect — no marker write, no tag mutation, no
composition output — is emitted.  Tag mutations and composition happen
only in MashTask.run, which is unreachable because construction failed. -/
theorem C3_conflict_fails_without_effects (byTitle : String → Option PackageUpdate)
    (updates0 : List PackageUpdate) (repos0 : List String)
    (fs : FsState) (ts : List String) (hm : fs.marker = some ts) :
    MashTask.taskInit byTitle false updates0 repos0 fs
      = (.error .mashTaskException, fs, []) := by
  unfold MashTask.taskInit MashTask.lockAcquire
  rw [hm]
  simp

/-- C3 witnessed at a concrete conflicting state. -/
theorem C3_conflict_fails_without_effects_witness :
    MashTask.taskInit (fun _ => none) false [] []
        { marker := some ["kernel-2.6.27-1.fc9"] }
      = (.error .mashTaskException, { marker := some ["kernel-2.6.27-1.fc9"] }, []) :=
  C3_conflict_fails_without_effects (fun _ => none) [] []
    { marker := some ["kernel-2.6.27-1.fc9"] } ["kernel-2.6.27-1.fc9"] rfl

/-- C4: constructing a MashTask with resume = true while the marker
exists succeeds, leaves the filesystem unchanged, and yields exactly the
union of the updates passed in with the update records that the marker
titles still resolve to; titles that fail to resolve are skipped without
aborting construction (byTitle is arbitrary, in particular it may fail on
any subset of the titles). -/
theorem C4_resume_unions_marker_titles (byTitle : String → Option PackageUpdate)
    (updates0 : List PackageUpdate) (repos0 : List String)
    (fs : FsState) (titles : List String) (hm : fs.marker = some titles) :
    ∃ ts : TaskState,
      (MashTask.taskInit byTitle true updates0 repos0 fs).1 = .ok ts
      ∧ (MashTask.taskInit byTitle true updates0 repos0 fs).2.1 = fs
      ∧ ∀ u, u ∈ ts.updates
          ↔ (u ∈ updates0 ∨ ∃ t ∈ titles, byTitle t = some u) := by
  have hlock : MashTask.lockAcquire byTitle true (updates0.foldl updatesAdd []) fs
      = .ok (titles.foldl (fun acc t => match byTitle t with
              | some up => updatesAdd acc up
              | none => acc) (updates0.foldl updatesAdd []), fs) := by
    unfold MashTask.lockAcquire
    rw [hm]
    rfl
  refine ⟨{ updates := titles.foldl (fun acc t => match byTitle t with
              | some up => updatesAdd acc up
              | none => acc) (updates0.foldl updatesAdd []),
            repos := findRepos true (titles.foldl (fun acc t => match byTitle t with
              | some up => updatesAdd acc up
              | none => acc) (updates0.foldl updatesAdd [])) repos0,
            tag := none, actions := [], errors := [], safe := true,
            success := false, resume := true }, ?_, ?_, ?_⟩
  · simp only [MashTask.taskInit]
    rw [hlock]
  · simp only [MashTask.taskInit]
    rw [hlock]
  · intro u
    rw [mem_resumeFold byTitle titles _ u, mem_foldl_updatesAdd]
    simp

/-- C4 witnessed: one resolvable title and one stale title; the stale one
is skipped, the resolvable one joins the updates passed in. -/
theorem C4_resume_unions_marker_titles_witness :
    ∃ ts : TaskState,
      (MashTask.taskInit
          (fun t => if t = "grubby-9-1.fc9" then
              some { title := "grubby-9-1.fc9", request := some "testing",
                     status := "pending",
                     release := { name := "F9", dist_tag := "dist-f9" },
                     builds := [{ nvr := "grubby-9-1.fc9", inherited := false }] }
            else none)
          true
          [{ title := "nspluginwrapper-1.1-2.fc9", request := some "stable",
             status := "testing",
             release := { name := "F9", dist_tag := "dist-f9" },
             builds := [{ nvr := "nspluginwrapper-1.1-2.fc9", inherited := false }] }]
          [] { marker := some ["grubby-9-1.fc9", "gone-1-1.fc9"] }).1 = .ok ts
      ∧ (MashTask.taskInit
          (fun t => if t = "grubby-9-1.fc9" then
              some { title := "grubby-9-1.fc9", request := some "testing",
                     status := "pending",
                     release := { name := "F9", dist_tag := "dist-f9" },
                     builds := [{ nvr := "grubby-9-1.fc9", inherited := false }] }
            else none)
          true
          [{ title := "nspluginwrapper-1.1-2.fc9", request := some "stable",
             status := "testing",
             release := { name := "F9", dist_tag := "dist-f9" },
             builds := [{ nvr := "nspluginwrapper-1.1-2.fc9", inherited := false }] }]
          [] { marker := some ["grubby-9-1.fc9", "gone-1-1.fc9"] }).2.1
          = { marker := some ["grubby-9-1.fc9", "gone-1-1.fc9"] }
      ∧ ∀ u, u ∈ ts.updates
          ↔ (u ∈ [({ title := "nspluginwrapper-1.1-2.fc9", request := some "stable",
                     status := "testing",
                     release := { name := "F9", dist_tag := "dist-f9" },
                     builds := [{ nvr := "nspluginwrapper-1.1-2.fc9", inherited := false }] } : PackageUpdate)]
              ∨ ∃ t ∈ ["grubby-9-1.fc9", "gone-1-1.fc9"],
                  (fun t => if t = "grubby-9-1.fc9" then
                      some { title := "grubby-9-1.fc9", request := some "testing",
                             status := "pending",
                             release := { name := "F9", dist_tag := "dist-f9" },
                             builds := [{ nvr := "grubby-9-1.fc9", inherited := false }] }
                    else none) t = some u) :=
  C4_resume_unions_marker_titles
    (fun t => if t = "grubby-9-1.fc9" then
        some { title := "grubby-9-1.fc9", request := some "testing",
               status := "pending",
               release := { name := "F9", dist_tag := "dist-f9" },
               builds := [{ nvr := "grubby-9-1.fc9", inherited := false }] }
      else none)
    [{ title := "nspluginwrapper-1.1-2.fc9", request := some "stable",
       status := "testing",
       release := { name := "F9", dist_tag := "dist-f9" },
       builds := [{ nvr := "nspluginwrapper-1.1-2.fc9", inherited := false }] }]
    [] { marker := some ["grubby-9-1.fc9", "gone-1-1.fc9"] }
    ["grubby-9-1.fc9", "gone-1-1.fc9"] rfl

/-! ## Theorems: exhaustive consistency checking (claim C5) -/

lemma foldl_check_eq_filterMap (d : TagDicts) (u : PackageUpdate)
    (bs : List Build) : ∀ (st : ErrState),
    bs.foldl (fun st2 b => match checkBuild d u b with
      | some msg => error_log st2 msg
      | none => st2) st
    = (bs.filterMap (checkBuild d u)).foldl error_log st := by
  induction bs with
  | nil => intro st; rfl
  | cons b t ih =>
      intro st
      cases h : checkBuild d u b <;>
        simp [List.foldl_cons, List.filterMap_cons, h, ih]

lemma foldl_updates_eq_flatMap (d : TagDicts)
    (us : List PackageUpdate) : ∀ (st : ErrState),
    us.foldl (fun st1 u =>
      u.builds.foldl (fun st2 b =>
        match checkBuild d u b with
        | some msg => error_log st2 msg
        | none => st2) st1) st
    = (us.flatMap (fun u => u.builds.filterMap (checkBuild d u))).foldl
        error_log st := by
  induction us with
  | nil => intro st; rfl
  | cons u t ih =>
      intro st
      simp only [List.foldl_cons, List.flatMap_cons, List.foldl_append]
      rw [foldl_check_eq_filterMap d u u.builds st, ih]

lemma foldl_error_log (msgs : List String) : ∀ (st : ErrState),
    msgs.foldl error_log st
    = if msgs = [] then st
      else { errors := st.errors ++ msgs, safe := false, success := false } := by
  induction msgs with
  | nil => intro st; rfl
  | cons m t ih =>
      intro st
      by_cases h : t = []
      · subst h
        simp [error_log]
      · simp only [List.foldl_cons, ih, h, if_false]
        simp [error_log]

lemma safe_to_move_char (lt : String → List String) (us : List PackageUpdate)
    (st : ErrState) :
    safe_to_move lt us st
    = (if failMsgs lt us = [] then st
       else { errors := st.errors ++ failMsgs lt us, safe := false,
              success := false },
       if failMsgs lt us = [] then st.safe else false) := by
  simp only [safe_to_move, failMsgs]
  rw [foldl_updates_eq_flatMap (populateNvrs lt us) us st]
  rw [foldl_error_log]
  by_cases h : (us.flatMap (fun u =>
      u.builds.filterMap (checkBuild (populateNvrs lt us) u))) = [] <;>
    simp [h]

lemma length_filterMap_countP {α β : Type} (f : α → Option β)
    (l : List α) : (l.filterMap f).length = l.countP (fun a => (f a).isSome) := by
  induction l with
  | nil => rfl
  | cons a t ih =>
      cases h : f a <;> simp [List.filterMap_cons, h, List.countP_cons, ih]

/-- C5: safe_to_move is exhaustive.  Starting from the clean state run
begins with, the error list after the check is exactly the list of
messages of the failing builds of ALL updates (one message per failing
build, none dropped, none duplicated, the walk never stops early); the
returned safe flag is true if and only if no build fails; the number of
collected errors equals the total count of failing builds; and when the
check fails on a non-resuming run, MashTask.run returns before
move_builds, issuing no koji tag mutation. -/
theorem C5_checking_exhaustive (lt : String → List String)
    (us : List PackageUpdate) :
    ((safe_to_move lt us { errors := [], safe := true, success := true }).1).errors
        = failMsgs lt us
    ∧ ((safe_to_move lt us { errors := [], safe := true, success := true }).2 = true
        ↔ failMsgs lt us = [])
    ∧ (failMsgs lt us).length
        = (us.map (fun u => u.builds.countP
            (fun b => (checkBuild (populateNvrs lt us) u b).isSome))).sum
    ∧ ∀ (o : StageOutcomes) (gbt : PackageUpdate → String) (repos : List String)
        (fs : FsState),
        (safe_to_move lt us { errors := [], safe := true, success := true }).2 = false →
        (MashTask.taskRun o lt gbt false us repos fs).kojiCalls = [] := by
  refine ⟨?_, ?_, ?_, ?_⟩
  · rw [safe_to_move_char]
    by_cases h : failMsgs lt us = [] <;> simp [h]
  · rw [safe_to_move_char]
    by_cases h : failMsgs lt us = [] <;> simp [h]
  · simp only [failMsgs]
    generalize populateNvrs lt us = d
    induction us with
    | nil => rfl
    | cons u t ih =>
        simp [List.flatMap_cons, length_filterMap_countP, ih]
  · intro o gbt repos fs hfail
    simp [MashTask.taskRun, hfail]

/-- C5 witnessed: two updates, each with one build missing its expected
tag, produce exactly two errors, an unsafe verdict, and a run that issues
no koji call. -/
theorem C5_checking_exhaustive_witness :
    (((safe_to_move (fun _ => [])
        [{ title := "a-1-1.fc9", request := some "testing", status := "pending",
           release := { name := "F9", dist_tag := "dist-f9" },
           builds := [{ nvr := "a-1-1.fc9", inherited := false }] },
         { title := "b-2-1.fc9", request := some "stable", status := "testing",
           release := { name := "F9", dist_tag := "dist-f9" },
           builds := [{ nvr := "b-2-1.fc9", inherited := false }] }]
        { errors := [], safe := true, success := true }).1).errors
      = ["a-1-1.fc9 not tagged as candidate", "b-2-1.fc9 not tagged as testing"])
    ∧ (MashTask.taskRun
        { tasksOk := true, mashOk := true, requestsOk := true, genmdOk := true,
          symlinksClean := true, cacheOk := true, syncOk := true, notifyOk := true }
        (fun _ => [])
        (fun _ => "dist-f9-updates-candidate") false
        [{ title := "a-1-1.fc9", request := some "testing", status := "pending",
           release := { name := "F9", dist_tag := "dist-f9" },
           builds := [{ nvr := "a-1-1.fc9", inherited := false }] },
         { title := "b-2-1.fc9", request := some "stable", status := "testing",
           release := { name := "F9", dist_tag := "dist-f9" },
           builds := [{ nvr := "b-2-1.fc9", inherited := false }] }]
        ["f9-updates-testing"] { marker := some ["a-1-1.fc9", "b-2-1.fc9"] }).kojiCalls
      = [] :=
  ⟨by
    have h := (C5_checking_exhaustive (fun _ => [])
      [{ title := "a-1-1.fc9", request := some "testing", status := "pending",
         release := { name := "F9", dist_tag := "dist-f9" },
         builds := [{ nvr := "a-1-1.fc9", inherited := false }] },
       { title := "b-2-1.fc9", request := some "stable", status := "testing",
         release := { name := "F9", dist_tag := "dist-f9" },
         builds := [{ nvr := "b-2-1.fc9", inherited := false }] }]).1
    rw [h]
    decide,
   (C5_checking_exhaustive (fun _ => [])
      [{ title := "a-1-1.fc9", request := some "testing", status := "pending",
         release := { name := "F9", dist_tag := "dist-f9" },
         builds := [{ nvr := "a-1-1.fc9", inherited := false }] },
       { title := "b-2-1.fc9", request := some "stable", status := "testing",
         release := { name := "F9", dist_tag := "dist-f9" },
         builds := [{ nvr := "b-2-1.fc9", inherited := false }] }]).2.2.2
     { tasksOk := true, mashOk := true, requestsOk := true, genmdOk := true,
       symlinksClean := true, cacheOk := true, syncOk := true, notifyOk := true }
     (fun _ => "dist-f9-updates-candidate")
     ["f9-updates-testing"] { marker := some ["a-1-1.fc9", "b-2-1.fc9"] }
     (by decide)⟩

/-! ## Theorems: the tag-moving audit log (claims C6, C10) -/

lemma move_builds_go_maps (gbt : PackageUpdate → String)
    (us : List PackageUpdate) : ∀ (tag : Option String),
    ((move_builds_go gbt tag us).2.2).map (fun a => a.1)
      = ((move_builds_go gbt tag us).2.1).map callNvr
    ∧ ((move_builds_go gbt tag us).2.2).map (fun a => a.2.2)
      = ((move_builds_go gbt tag us).2.1).map callDst
    ∧ ((move_builds_go gbt tag us).2.2).length
      = ((move_builds_go gbt tag us).2.1).length := by
  induction us with
  | nil => intro tag; exact ⟨rfl, rfl, rfl⟩
  | cons u t ih =>
      intro tag
      obtain ⟨ih1, ih2, ih3⟩ := ih (destTag u tag)
      have hnvr : ∀ b ∈ u.builds,
          callNvr (buildCall (destTag u tag) (gbt u) b) = b.nvr := by
        intro b _
        by_cases hb : b.inherited <;> simp [buildCall, callNvr, hb]
      have hdst : ∀ b ∈ u.builds,
          callDst (buildCall (destTag u tag) (gbt u) b) = destTag u tag := by
        intro b _
        by_cases hb : b.inherited <;> simp [buildCall, callDst, hb]
      refine ⟨?_, ?_, ?_⟩
      · simp only [move_builds_go, List.map_append, List.map_map]
        rw [ih1]
        congr 1
        apply List.map_congr_left
        intro b hb
        simp only [Function.comp_apply]
        exact (hnvr b hb).symm
      · simp only [move_builds_go, List.map_append, List.map_map]
        rw [ih2]
        congr 1
        apply List.map_congr_left
        intro b hb
        simp only [Function.comp_apply]
        exact (hdst b hb).symm
      · simp [move_builds_go, ih3]

/-- C6: every attempted tag mutation in move_builds appends exactly one
(nvr, source tag, destination tag) triple to the actions log: the log and
the issued koji batch have the same length, agree position by position on
the build nvr and on the destination tag, and the log is identical
whether the awaited batch succeeds or fails (the appends happen before
koji.multiCall is awaited, so the outcome cannot influence them). -/
theorem C6_one_action_per_mutation (gbt : PackageUpdate → String)
    (tag : Option String) (us : List PackageUpdate) (ok1 ok2 : Bool) :
    ((move_builds_full gbt tag us ok1).1.2.2).length
        = ((move_builds_full gbt tag us ok1).1.2.1).length
    ∧ (move_builds_full gbt tag us ok1).1.2.2
        = (move_builds_full gbt tag us ok2).1.2.2
    ∧ ((move_builds_full gbt tag us ok1).1.2.2).map (fun a => a.1)
        = ((move_builds_full gbt tag us ok1).1.2.1).map callNvr
    ∧ ((move_builds_full gbt tag us ok1).1.2.2).map (fun a => a.2.2)
        = ((move_builds_full gbt tag us ok1).1.2.1).map callDst := by
  obtain ⟨h1, h2, h3⟩ := move_builds_go_maps gbt us tag
  exact ⟨h3, rfl, h1, h2⟩

lemma move_builds_go_append (gbt : PackageUpdate → String)
    (l1 : List PackageUpdate) : ∀ (l2 : List PackageUpdate) (tag : Option String),
    move_builds_go gbt tag (l1 ++ l2)
    = ((move_builds_go gbt (move_builds_go gbt tag l1).1 l2).1,
       (move_builds_go gbt tag l1).2.1
         ++ (move_builds_go gbt (move_builds_go gbt tag l1).1 l2).2.1,
       (move_builds_go gbt tag l1).2.2
         ++ (move_builds_go gbt (move_builds_go gbt tag l1).1 l2).2.2) := by
  induction l1 with
  | nil => intro l2 tag; simp [move_builds_go]
  | cons u t ih =>
      intro l2 tag
      simp [move_builds_go, ih]

lemma destTag_other (u : PackageUpdate) (tag : Option String)
    (h1 : u.request ≠ some "stable") (h2 : u.request ≠ some "testing")
    (h3 : u.request ≠ some "obsolete") : destTag u tag = tag := by
  simp [destTag, h1, h2, h3]

/-- C10: in move_builds, an update whose request is none of stable,
testing, obsolete (for example unpush, or a cleared request) does not get
a destination tag of its own: its builds are logged and tagged with
whatever self.tag was left by the earlier updates of the batch — the
result of processing the prefix — and that stale tag also seeds the
processing of the remaining updates.  When the prefix is empty that tag
is None, the value set in __init__. -/
theorem C10_stale_tag_for_unhandled_request (gbt : PackageUpdate → String)
    (us1 us2 : List PackageUpdate) (u : PackageUpdate)
    (h1 : u.request ≠ some "stable") (h2 : u.request ≠ some "testing")
    (h3 : u.request ≠ some "obsolete") :
    (move_builds_go gbt none (us1 ++ u :: us2)).2.2
      = (move_builds_go gbt none us1).2.2
        ++ u.builds.map (fun b => (b.nvr, gbt u, (move_builds_go gbt none us1).1))
        ++ (move_builds_go gbt (move_builds_go gbt none us1).1 us2).2.2
    ∧ (move_builds_go gbt none (us1 ++ u :: us2)).2.1
      = (move_builds_go gbt none us1).2.1
        ++ u.builds.map (buildCall (move_builds_go gbt none us1).1 (gbt u))
        ++ (move_builds_go gbt (move_builds_go gbt none us1).1 us2).2.1
    ∧ (move_builds_go gbt none ([] : List PackageUpdate)).1 = none := by
  have hd := destTag_other u (move_builds_go gbt none us1).1 h1 h2 h3
  rw [move_builds_go_append gbt us1 (u :: us2) none]
  constructor
  · simp [move_builds_go, hd, List.append_assoc]
  · constructor
    · simp [move_builds_go, hd, List.append_assoc]
    · rfl

/-- C10 witnessed: a stable update followed by an unpush update; the
unpush update's build is moved to the STABLE destination tag left over
from the first update. -/
theorem C10_stale_tag_for_unhandled_request_witness :
    ((move_builds_go (fun _ => "dist-f9-updates-testing") none
        ([{ title := "a-1-1.fc9", request := some "stable", status := "testing",
            release := { name := "F9", dist_tag := "dist-f9" },
            builds := [{ nvr := "a-1-1.fc9", inherited := false }] }]
          ++ ({ title := "b-2-1.fc9", request := some "unpush", status := "testing",
                release := { name := "F9", dist_tag := "dist-f9" },
                builds := [{ nvr := "b-2-1.fc9", inherited := false }] } : PackageUpdate)
            :: [])).2.2
      = (move_builds_go (fun _ => "dist-f9-updates-testing") none
          [{ title := "a-1-1.fc9", request := some "stable", status := "testing",
             release := { name := "F9", dist_tag := "dist-f9" },
             builds := [{ nvr := "a-1-1.fc9", inherited := false }] }]).2.2
        ++ [({ nvr := "b-2-1.fc9", inherited := false } : Build)].map
            (fun b => (b.nvr, "dist-f9-updates-testing",
              (move_builds_go (fun _ => "dist-f9-updates-testing") none
                [{ title := "a-1-1.fc9", request := some "stable", status := "testing",
                   release := { name := "F9", dist_tag := "dist-f9" },
                   builds := [{ nvr := "a-1-1.fc9", inherited := false }] }]).1))
        ++ (move_builds_go (fun _ => "dist-f9-updates-testing")
            (move_builds_go (fun _ => "dist-f9-updates-testing") none
              [{ title := "a-1-1.fc9", request := some "stable", status := "testing",
                 release := { name := "F9", dist_tag := "dist-f9" },
                 builds := [{ nvr := "a-1-1.fc9", inherited := false }] }]).1 []).2.2)
    ∧ (move_builds_go (fun _ => "dist-f9-updates-testing") none
        ([{ title := "a-1-1.fc9", request := some "stable", status := "testing",
            release := { name := "F9", dist_tag := "dist-f9" },
            builds := [{ nvr := "a-1-1.fc9", inherited := false }] }]
          ++ ({ title := "b-2-1.fc9", request := some "unpush", status := "testing",
                release := { name := "F9", dist_tag := "dist-f9" },
                builds := [{ nvr := "b-2-1.fc9", inherited := false }] } : PackageUpdate)
            :: [])).2.2
      = [("a-1-1.fc9", "dist-f9-updates-testing", some "dist-f9-updates"),
         ("b-2-1.fc9", "dist-f9-updates-testing", some "dist-f9-updates")] :=
  ⟨((C10_stale_tag_for_unhandled_request (fun _ => "dist-f9-updates-testing")
      [{ title := "a-1-1.fc9", request := some "stable", status := "testing",
         release := { name := "F9", dist_tag := "dist-f9" },
         builds := [{ nvr := "a-1-1.fc9", inherited := false }] }] []
      { title := "b-2-1.fc9", request := some "unpush", status := "testing",
        release := { name := "F9", dist_tag := "dist-f9" },
        builds := [{ nvr := "b-2-1.fc9", inherited := false }] }
      (by decide) (by decide) (by decide)).1 :),
   by decide⟩

/-! ## Theorems: marker removal on the run exit paths (claim C8) -/

lemma safe_to_move_false_success (lt : String → List String)
    (us : List PackageUpdate)
    (h : (safe_to_move lt us { errors := [], safe := true, success := true }).2
        = false) :
    ((safe_to_move lt us { errors := [], safe := true, success := true }).1).success
      = false := by
  rw [safe_to_move_char] at h ⊢
  by_cases hm : failMsgs lt us = []
  · simp [hm] at h
  · simp [hm]

lemma runEpilogue_facts (st : ErrState) (c : List KojiCall) (fs : FsState) :
    (runEpilogue st c fs).doneCalled = true
    ∧ (runEpilogue st c fs).unlockCalled = st.success
    ∧ (runEpilogue st c fs).st = st
    ∧ (runEpilogue st c fs).fs
        = (if st.success then ({ marker := none } : FsState) else fs) := by
  unfold runEpilogue MashTask.unlockStep
  by_cases h : st.success <;> simp [h]

lemma mashAndRest_shape (o : StageOutcomes) (st : ErrState) (c : List KojiCall)
    (repos : List String) (fs : FsState) :
    ∃ st2 : ErrState, mashAndRest o st c repos fs = runEpilogue st2 c fs := by
  unfold mashAndRest
  split_ifs <;> exact ⟨_, rfl⟩

lemma runResult_facts_of_epilogue {r : RunResult} {st : ErrState}
    {c : List KojiCall} {fs : FsState} (h : r = runEpilogue st c fs) :
    r.doneCalled = true ∧ r.unlockCalled = r.st.success
    ∧ (fs.marker.isSome → (r.fs.marker = none ↔ r.st.success = true)) := by
  subst h
  obtain ⟨hd, hu, hs, hf⟩ := runEpilogue_facts st c fs
  refine ⟨hd, by rw [hu, hs], ?_⟩
  intro hm
  rw [hf, hs]
  cases h2 : st.success with
  | true => simp
  | false =>
      simp only [Bool.false_eq_true, if_false]
      cases hfm : fs.marker with
      | none =>
          rw [hfm] at hm
          simp at hm
      | some t => simp

/-- C8: on every exit path of MashTask.run — the early abort when the
consistency check fails, the exception handler after any raising stage,
the soft failure of the publish checks, and full success — the
resumption marker is removed exactly when the final success flag is true:
_unlock runs if and only if success, a present marker disappears if and
only if success, and masher.done is invoked in every case. -/
theorem C8_marker_removed_iff_success (o : StageOutcomes)
    (lt : String → List String) (gbt : PackageUpdate → String) (resume : Bool)
    (us : List PackageUpdate) (repos : List String) (fs : FsState) :
    (MashTask.taskRun o lt gbt resume us repos fs).doneCalled = true
    ∧ (MashTask.taskRun o lt gbt resume us repos fs).unlockCalled
        = ((MashTask.taskRun o lt gbt resume us repos fs).st).success
    ∧ (fs.marker.isSome →
        ((MashTask.taskRun o lt gbt resume us repos fs).fs.marker = none
          ↔ ((MashTask.taskRun o lt gbt resume us repos fs).st).success = true)) := by
  simp only [MashTask.taskRun]
  by_cases h1 : resume = false ∧
      (safe_to_move lt us { errors := [], safe := true, success := true }).2 = false
  · rw [if_pos h1]
    refine ⟨rfl, (safe_to_move_false_success lt us h1.2).symm, ?_⟩
    intro hm
    constructor
    · intro hnone
      cases hfm : fs.marker with
      | none =>
          rw [hfm] at hm
          simp at hm
      | some t =>
          rw [hfm] at hnone
          simp at hnone
    · intro hsucc
      rw [safe_to_move_false_success lt us h1.2] at hsucc
      simp at hsucc
  · rw [if_neg h1]
    by_cases h2 : resume = false ∧ us ≠ []
    · rw [if_pos h2]
      by_cases h3 : o.tasksOk
      · rw [if_pos h3]
        obtain ⟨st2, hshape⟩ := mashAndRest_shape o _ _ repos fs
        exact runResult_facts_of_epilogue hshape
      · rw [if_neg h3]
        exact runResult_facts_of_epilogue rfl
    · rw [if_neg h2]
      obtain ⟨st2, hshape⟩ := mashAndRest_shape o _ _ repos fs
      exact runResult_facts_of_epilogue hshape

/-- C8 witnessed on a fully successful resumed run with the marker
present: done is called, unlock matches success, and the marker is
removed exactly because success is true. -/
theorem C8_marker_removed_iff_success_witness :
    (MashTask.taskRun
        { tasksOk := true, mashOk := true, requestsOk := true, genmdOk := true,
          symlinksClean := true, cacheOk := true, syncOk := true, notifyOk := true }
        (fun _ => []) (fun _ => "dist-f9-updates-candidate") true []
        ["f9-updates"] { marker := some ["a-1-1.fc9"] }).doneCalled = true
    ∧ (MashTask.taskRun
        { tasksOk := true, mashOk := true, requestsOk := true, genmdOk := true,
          symlinksClean := true, cacheOk := true, syncOk := true, notifyOk := true }
        (fun _ => []) (fun _ => "dist-f9-updates-candidate") true []
        ["f9-updates"] { marker := some ["a-1-1.fc9"] }).unlockCalled
      = ((MashTask.taskRun
        { tasksOk := true, mashOk := true, requestsOk := true, genmdOk := true,
          symlinksClean := true, cacheOk := true, syncOk := true, notifyOk := true }
        (fun _ => []) (fun _ => "dist-f9-updates-candidate") true []
        ["f9-updates"] { marker := some ["a-1-1.fc9"] }).st).success
    ∧ ((MashTask.taskRun
        { tasksOk := true, mashOk := true, requestsOk := true, genmdOk := true,
          symlinksClean := true, cacheOk := true, syncOk := true, notifyOk := true }
        (fun _ => []) (fun _ => "dist-f9-updates-candidate") true []
        ["f9-updates"] { marker := some ["a-1-1.fc9"] }).fs.marker = none
      ↔ ((MashTask.taskRun
        { tasksOk := true, mashOk := true, requestsOk := true, genmdOk := true,
          symlinksClean := true, cacheOk := true, syncOk := true, notifyOk := true }
        (fun _ => []) (fun _ => "dist-f9-updates-candidate") true []
        ["f9-updates"] { marker := some ["a-1-1.fc9"] }).st).success = true) :=
  have h := C8_marker_removed_iff_success
    { tasksOk := true, mashOk := true, requestsOk := true, genmdOk := true,
      symlinksClean := true, cacheOk := true, syncOk := true, notifyOk := true }
    (fun _ => []) (fun _ => "dist-f9-updates-candidate") true []
    ["f9-updates"] { marker := some ["a-1-1.fc9"] }
  ⟨h.1, h.2.1, h.2.2 (by decide)⟩

/-! ## Theorems: the publish stage never relocates the tree (claim C7) -/

/-- C7 is what the code INTENDS (its docstring and debug messages say the
validated tree is moved to mashed_stage_dir before the symlink flip), but
the code cannot do it.  First conjunct: with any architecture configured,
line 419 concatenates a Python list with a string, so update_symlinks
raises TypeError before any check completes.  Second conjunct: with no
architecture configured, a repository that passes the remaining checks
(its package file is a real file, no error is logged) is published —
the live symlink is unlinked and repointed — yet no relocation into the
staging root is ever emitted, because line 440 compares mashed_dir with
itself; the composed tree stays under the mashing directory.  Third
conjunct: the two directories differ, so the missing move is not a no-op. -/
theorem C7_publish_never_relocates :
    (update_symlinks_go
        { mashed_dir := "/mashed", mashed_stage_dir := "/stage",
          arches := ["i386"] }
        { listdir := fun _ => ["i386"], islink := fun _ => false }
        { errors := [], safe := true, success := true } []
        [("f9-updates", "/mashed/f9-updates-090101.0101")]
      = .error PyErr.typeError)
    ∧ (update_symlinks_go
        { mashed_dir := "/mashed", mashed_stage_dir := "/stage", arches := [] }
        { listdir := fun p => if p == "/mashed/x/f9-updates" then ["i386"] else [],
          islink := fun p => p == "/mashed/f9-updates" }
        { errors := [], safe := true, success := true } []
        [("f9-updates", "/mashed/x")]
      = .ok ({ errors := [], safe := true, success := true },
             [FsOp.rename "/mashed/x/f9-updates/i386"
                "/mashed/x/f9-updates/i386.newkey",
              FsOp.unlink "/mashed/f9-updates",
              FsOp.symlink "/mashed/x/f9-updates" "/mashed/f9-updates"]))
    ∧ ("/mashed" : String) ≠ "/stage" := by
  refine ⟨rfl, rfl, by decide⟩

end Bodhi
